import Mathlib

/-
Verification development for the authentication and session core of a
NestJS user-management service.

The embedding below is a shallow, executable rendering of the TypeScript
sources:
  src/users/user.entity.ts        (User, Role, Permission entities)
  src/users/users.service.ts      (UsersService: create, findOne,
                                   findOneByUsername, update)
  src/auth/auth.service.ts        (AuthService: register, login,
                                   refreshTokens, clearRefreshToken,
                                   changePassword, generateTokens,
                                   storeRefreshToken, handleServiceError)
  src/auth/auth.controller.ts     (AuthController: register, login
                                   error mapping)
  src/auth/guards/permissions.guard.ts (PermissionsGuard.canActivate)

Modelling conventions:
  - Async methods against the store become explicit state passing over
    AppState; thrown exceptions become Except AppError.
  - bcrypt hashing is abstracted as an injective tagged encoding of the
    plaintext; bcrypt.compare is hash-equality, in line with the way the
    service only ever compares via bcrypt.compare.
  - A signed JWT is a record of its claim payload, signing secret and
    issue time; jwtService.verifyAsync checks the secret. Real time is a
    logical clock in AppState, advanced at each token issuance, so two
    issuances never collide.
  - The createdAt and updatedAt columns are set by the store and never
    read by any of the operations below, so they are omitted.
  - JavaScript truthiness is rendered explicitly where the sources rely
    on it: a found entity object is always truthy, an empty string is
    falsy, and an empty array is truthy.
-/

instance {ε α : Type} [DecidableEq ε] [DecidableEq α] : DecidableEq (Except ε α) := fun x y =>
  match x, y with
  | .error a, .error b =>
    if h : a = b then isTrue (by rw [h]) else isFalse (fun hc => h (Except.error.inj hc))
  | .error _, .ok _ => isFalse (fun hc => Except.noConfusion hc)
  | .ok _, .error _ => isFalse (fun hc => Except.noConfusion hc)
  | .ok a, .ok b =>
    if h : a = b then isTrue (by rw [h]) else isFalse (fun hc => h (Except.ok.inj hc))

/-- JavaScript String.prototype.toLowerCase on the character sequence. -/
def jsToLowerCase (s : String) : String := String.mk (s.data.map Char.toLower)

/-- Permission entity: atomic capability with a unique name. -/
structure Permission where
  id : Nat
  name : String
deriving DecidableEq, Inhabited

/-- Role entity: named bundle of permissions (many-to-many). -/
structure Role where
  id : Nat
  name : String
  permissions : List Permission
deriving DecidableEq, Inhabited

/-- Claim payload common to both tokens: { sub: user.id, username }. -/
structure JwtPayload where
  sub : Nat
  username : String
deriving DecidableEq, Inhabited

/-- A signed JWT: payload, signing secret, issue time, lifetime. -/
structure Jwt where
  payload : JwtPayload
  secret : String
  iat : Nat
  expiresIn : String
deriving DecidableEq, Inhabited

/-- User entity (src/users/user.entity.ts): id, unique username stored
lowercase, bcrypt password hash, nullable refresh-token column, roles. -/
structure User where
  id : Nat
  username : String
  password : String
  refreshToken : Option Jwt
  roles : List Role
deriving DecidableEq, Inhabited

/-- The persistent store plus the logical clock used for token issuance. -/
structure AppState where
  users : List User
  now : Nat
deriving DecidableEq, Inhabited

/-- The NestJS exception taxonomy used by the core, plus the error a
failed jwtService.verifyAsync raises (a JsonWebTokenError, which is none
of the four domain exceptions). -/
inductive AppError where
  | unauthorized (msg : String)
  | notFound (msg : String)
  | conflict (msg : String)
  | badRequest (msg : String)
  | internal (msg : String)
  | jwtVerification (msg : String)
deriving DecidableEq, Inhabited

structure CreateUserDto where
  username : String
  password : String
  roleIds : Option (List Nat) := none
deriving DecidableEq, Inhabited

structure LoginUserDto where
  username : String
  password : String
deriving DecidableEq, Inhabited

structure ChangePasswordDto where
  currentPassword : String
  newPassword : String
deriving DecidableEq, Inhabited

/-- Partial update payload. A field set to none is absent (undefined in
the source); refreshToken distinguishes undefined (none) from an
explicit null (some none), mirroring `refreshToken !== undefined`. -/
structure UpdateUserDto where
  username : Option String := none
  password : Option String := none
  refreshToken : Option (Option Jwt) := none
deriving DecidableEq, Inhabited

structure TokensResponseDto where
  accessToken : Jwt
  refreshToken : Jwt
deriving DecidableEq, Inhabited

/-- The Authorization header of a refresh request: absent, present but
not of the shape `Bearer token`, or carrying a token. -/
inductive AuthHeader where
  | missing
  | malformed (raw : String)
  | bearer (token : Jwt)
deriving DecidableEq, Inhabited

namespace Bcrypt

/-- bcrypt.hash with a fixed cost factor, abstracted as an injective
tagged encoding of the plaintext (the service never inverts hashes, it
only compares via Bcrypt.compare). -/
def hash (plaintext : String) (cost : Nat) : String :=
  "bcrypt$" ++ toString cost ++ "$" ++ plaintext

/-- bcrypt.compare: true iff the plaintext hashes to the stored value. -/
def compare (plaintext hashed : String) : Bool :=
  hash plaintext 10 == hashed

end Bcrypt

def JWT_ACCESS_SECRET : String := "access-secret"

def JWT_REFRESH_SECRET : String := "refresh-secret"

namespace JwtService

/-- jwtService.signAsync: deterministic in payload, secret, lifetime and
the current time. -/
def signAsync (payload : JwtPayload) (secret : String) (expiresIn : String) (now : Nat) : Jwt :=
  { payload := payload, secret := secret, iat := now, expiresIn := expiresIn }

/-- jwtService.verifyAsync: yields the claims iff the token was signed
with the given secret, otherwise raises a JsonWebTokenError. -/
def verifyAsync (token : Jwt) (secret : String) : Except AppError JwtPayload :=
  if token.secret = secret then .ok token.payload
  else .error (.jwtVerification "invalid signature")

end JwtService

namespace UsersService

/-- UsersService.findOne: look up by id, throw NotFoundException when
absent. -/
def findOne (id : Nat) (s : AppState) : Except AppError User :=
  match s.users.find? (fun u => u.id == id) with
  | some user => .ok user
  | none => .error (.notFound ("User with ID " ++ toString id ++ " not found"))

/-- UsersService.findOneByUsername: look up by the lowercased username,
throw NotFoundException when absent. Stored usernames are lowercase. -/
def findOneByUsername (username : String) (s : AppState) : Except AppError User :=
  match s.users.find? (fun u => u.username == jsToLowerCase username) with
  | some user => .ok user
  | none => .error (.notFound ("User with username " ++ username ++ " not found"))

/-- UsersService.create. The source first runs
  `const existingUser = await this.findOneByUsername(username)`
as its duplicate pre-check. findOneByUsername never resolves with null:
it either returns a user (always truthy, so `if (existingUser)` throws
ConflictException) or itself throws NotFoundException, which propagates
out of create uncaught (the try block only starts afterwards). The
hash-and-save block of the source is therefore unreachable and has no
image here. -/
def create (dto : CreateUserDto) (s : AppState) : Except AppError (User × AppState) :=
  match findOneByUsername dto.username s with
  | .ok _existingUser => .error (.conflict "Username already exists")
  | .error e => .error e

/-- UsersService.update: find by id (NotFoundException when absent),
optionally change username (availability pre-check via the throwing
findOneByUsername, so the assignment after it is unreachable), hash and
set a nonempty password, set the refreshToken column when the field is
not undefined, save, then re-read the row to verify the update. -/
def update (id : Nat) (dto : UpdateUserDto) (s : AppState) : Except AppError (User × AppState) :=
  match s.users.find? (fun u => u.id == id) with
  | none => .error (.notFound ("User with ID " ++ toString id ++ " not found"))
  | some user =>
    let usernameStep : Except AppError User :=
      match dto.username with
      | some newName =>
        if newName ≠ "" ∧ jsToLowerCase newName ≠ user.username then
          match findOneByUsername newName s with
          | .ok _existing => .error (.conflict "Username already exists")
          | .error e => .error e
        else .ok user
      | none => .ok user
    match usernameStep with
    | .error e => .error e
    | .ok user1 =>
      let user2 : User :=
        match dto.password with
        | some pw => if pw ≠ "" then { user1 with password := Bcrypt.hash pw 10 } else user1
        | none => user1
      let user3 : User :=
        match dto.refreshToken with
        | some rt => { user2 with refreshToken := rt }
        | none => user2
      let s1 : AppState := { s with users := s.users.map (fun u => if u.id == id then user3 else u) }
      match s1.users.find? (fun u => u.id == id) with
      | none => .error (.internal "Failed to verify user update")
      | some verifiedUser => .ok (verifiedUser, s1)

end UsersService

namespace AuthService

/-- AuthService.handleServiceError: the four domain exceptions are
rethrown unchanged; anything else is logged and converted to
InternalServerErrorException(operation + " failed"). -/
def handleServiceError (error : AppError) (operation : String) : AppError :=
  match error with
  | .unauthorized m => .unauthorized m
  | .notFound m => .notFound m
  | .conflict m => .conflict m
  | .badRequest m => .badRequest m
  | _ => .internal (operation ++ " failed")

/-- The try/catch wrapper every public AuthService operation runs under:
on error the catch block calls handleServiceError. -/
def withServiceErrors {α : Type} (operation : String) (r : Except AppError α) : Except AppError α :=
  match r with
  | .ok v => .ok v
  | .error e => .error (handleServiceError e operation)

/-- AuthService.validatePassword: bcrypt.compare. -/
def validatePassword (plaintext hashed : String) : Bool :=
  Bcrypt.compare plaintext hashed

/-- AuthService.hashPassword: bcrypt.hash with cost 10. -/
def hashPassword (password : String) : String :=
  Bcrypt.hash password 10

/-- AuthService.storeRefreshToken: update the user row with the new
refresh token, re-read it, and fail with
InternalServerErrorException("Failed to store refresh token") if any
step fails or the stored column is still null. -/
def storeRefreshToken (userId : Nat) (refreshToken : Jwt) (s : AppState) : Except AppError AppState :=
  match UsersService.update userId { refreshToken := some (some refreshToken) } s with
  | .error _ => .error (.internal "Failed to store refresh token")
  | .ok (_updatedUser, s1) =>
    match UsersService.findOne userId s1 with
    | .error _ => .error (.internal "Failed to store refresh token")
    | .ok user =>
      if user.refreshToken.isNone then .error (.internal "Failed to store refresh token")
      else .ok s1

/-- AuthService.generateTokens: sign an access and a refresh token over
{ sub, username } with distinct secrets and lifetimes, then persist the
refresh token via storeRefreshToken. The logical clock advances across
the issuance. -/
def generateTokens (user : User) (s : AppState) : Except AppError (TokensResponseDto × AppState) :=
  let payload : JwtPayload := { sub := user.id, username := user.username }
  let accessToken := JwtService.signAsync payload JWT_ACCESS_SECRET "15m" s.now
  let refreshToken := JwtService.signAsync payload JWT_REFRESH_SECRET "7d" s.now
  let s1 : AppState := { s with now := s.now + 1 }
  match storeRefreshToken user.id refreshToken s1 with
  | .error e => .error e
  | .ok s2 => .ok ({ accessToken := accessToken, refreshToken := refreshToken }, s2)

/-- AuthService.clearRefreshToken with its two store calls abstracted as
parameters: look the user up, then write refreshToken = null. The whole
body runs inside try/catch whose catch block only logs, so every failure
of either store call is swallowed and the state is returned unchanged.
The `if (!user) throw NotFoundException` of the source is unreachable
because findOne already throws in that case; had it run, the catch block
would swallow it identically. -/
def clearRefreshTokenWith
    (findOne : Nat → AppState → Except AppError User)
    (update : Nat → UpdateUserDto → AppState → Except AppError (User × AppState))
    (userId : Nat) (s : AppState) : AppState :=
  match findOne userId s with
  | .error _ => s
  | .ok _user =>
    match update userId { refreshToken := some none } s with
    | .error _ => s
    | .ok (_, s1) => s1

/-- AuthService.clearRefreshToken against the real UsersService. -/
def clearRefreshToken (userId : Nat) (s : AppState) : AppState :=
  clearRefreshTokenWith UsersService.findOne UsersService.update userId s

/-- AuthService.register: delegate the duplicate check and creation to
UsersService.create, then issue and bind a token pair. -/
def register (dto : CreateUserDto) (s : AppState) : Except AppError (TokensResponseDto × AppState) :=
  withServiceErrors "Registration" (
    match UsersService.create dto s with
    | .error e => .error e
    | .ok (user, s1) => generateTokens user s1)

/-- AuthService.login: look up by username (findOneByUsername throws
NotFoundException when absent, so the `!user` half of the guard is
unreachable), check the password, then issue and bind a pair. -/
def login (dto : LoginUserDto) (s : AppState) : Except AppError (TokensResponseDto × AppState) :=
  withServiceErrors "Login" (
    match UsersService.findOneByUsername dto.username s with
    | .error e => .error e
    | .ok user =>
      if ¬ validatePassword dto.password user.password then
        .error (.unauthorized "Invalid credentials")
      else generateTokens user s)

/-- AuthService.refreshTokens: require a Bearer header, verify the token
against the refresh secret, resolve the subject (findOne throws
NotFoundException when absent, making the `!user` guard unreachable),
require the token to equal the stored reference, then generate a new
pair (which stores the new refresh token) and afterwards run
clearRefreshToken, which nulls the binding just written. -/
def refreshTokens (authHeader : AuthHeader) (s : AppState) : Except AppError (TokensResponseDto × AppState) :=
  withServiceErrors "Token refresh" (
    match authHeader with
    | .bearer refreshToken =>
      match JwtService.verifyAsync refreshToken JWT_REFRESH_SECRET with
      | .error e => .error e
      | .ok payload =>
        match UsersService.findOne payload.sub s with
        | .error e => .error e
        | .ok user =>
          if user.refreshToken ≠ some refreshToken then
            .error (.unauthorized "Invalid refresh token")
          else
            match generateTokens user s with
            | .error e => .error e
            | .ok (tokens, s1) => .ok (tokens, clearRefreshToken user.id s1)
    | _ => .error (.unauthorized "Invalid authorization header"))

/-- AuthService.changePassword: reject newPassword = currentPassword
with ConflictException before anything else, resolve the user, check the
current password, store the new hash (UsersService.update hashes the
already-hashed value again, faithfully to the source), clear the
refresh-token binding, re-read the user and issue a fresh pair. -/
def changePassword (userId : Nat) (dto : ChangePasswordDto) (s : AppState) : Except AppError (TokensResponseDto × AppState) :=
  withServiceErrors "Password change" (
    if dto.currentPassword = dto.newPassword then
      .error (.conflict "Your new password must be different from the current one")
    else
      match UsersService.findOne userId s with
      | .error e => .error e
      | .ok user =>
        if ¬ validatePassword dto.currentPassword user.password then
          .error (.unauthorized "Current password is incorrect")
        else
          match UsersService.update userId { password := some (hashPassword dto.newPassword) } s with
          | .error e => .error e
          | .ok (_, s1) =>
            let s2 := clearRefreshToken userId s1
            match UsersService.findOne userId s2 with
            | .error e => .error e
            | .ok updatedUser => generateTokens updatedUser s2)

end AuthService

namespace AuthController

/-- AuthController.register: the catch block re-raises only
BadRequestException; every other failure, the domain
ConflictException included, becomes
InternalServerErrorException("Registration failed"). -/
def register (dto : CreateUserDto) (s : AppState) : Except AppError (TokensResponseDto × AppState) :=
  match AuthService.register dto s with
  | .ok r => .ok r
  | .error e =>
    match e with
    | .badRequest m => .error (.badRequest m)
    | _ => .error (.internal "Registration failed")

/-- AuthController.login: UnauthorizedException and NotFoundException are
re-raised with fixed messages, everything else becomes
InternalServerErrorException("Login failed"). -/
def login (dto : LoginUserDto) (s : AppState) : Except AppError (TokensResponseDto × AppState) :=
  match AuthService.login dto s with
  | .ok r => .ok r
  | .error e =>
    match e with
    | .unauthorized _ => .error (.unauthorized "Invalid credentials")
    | .notFound _ => .error (.notFound "User does not exist")
    | _ => .error (.internal "Login failed")

end AuthController

namespace PermissionsGuard

/-- The flattening of a user to the permission names held through roles:
roles.flatMap(role => role.permissions.map(p => p.name)). -/
def userPermissionNames (user : User) : List String :=
  user.roles.flatMap (fun role => role.permissions.map Permission.name)

/-- PermissionsGuard.canActivate. requiredPermissions is the metadata
read by the reflector: none when no permissions decorator is attached
(JS undefined, falsy, so the guard returns true), some list otherwise
(a JS array, truthy even when empty, so the guard proceeds). Then: no
subject on the request denies; an unresolvable user denies; otherwise
allow iff some required name is among the names the user holds. -/
def canActivate (requiredPermissions : Option (List String)) (requestUserSub : Option Nat) (s : AppState) : Bool :=
  match requiredPermissions with
  | none => true
  | some required =>
    match requestUserSub with
    | none => false
    | some userId =>
      match s.users.find? (fun u => u.id == userId) with
      | none => false
      | some userWithPermissions =>
        required.any (fun p => (userPermissionNames userWithPermissions).contains p)

end PermissionsGuard

/-
Concrete fixtures used by the closed theorems and witnesses below.
-/

def alicePayload : JwtPayload := { sub := 1, username := "alice" }

/-- A refresh token issued to alice at logical time 2. -/
def oldRefreshTok : Jwt := JwtService.signAsync alicePayload JWT_REFRESH_SECRET "7d" 2

def aliceUser : User :=
  { id := 1, username := "alice", password := Bcrypt.hash "P@ssw0rd1" 10,
    refreshToken := some oldRefreshTok, roles := [] }

/-- One registered user alice holding oldRefreshTok; the clock is past
the issue time of that token. -/
def baseState : AppState := { users := [aliceUser], now := 5 }

def emptyState : AppState := { users := [], now := 0 }

def roleReadPermission : Permission := { id := 1, name := "role_read" }

def readerRole : Role := { id := 1, name := "reader", permissions := [roleReadPermission] }

/-- A user holding permission role_read but not user_create. -/
def bobUser : User :=
  { id := 2, username := "bob", password := Bcrypt.hash "Secret123" 10,
    refreshToken := none, roles := [readerRole] }

def permState : AppState := { users := [bobUser], now := 0 }

/-- The pair returned by a successful refresh with oldRefreshTok from
baseState: both tokens signed at logical time 5. -/
def rotatedTokens : TokensResponseDto :=
  { accessToken := JwtService.signAsync alicePayload JWT_ACCESS_SECRET "15m" 5,
    refreshToken := JwtService.signAsync alicePayload JWT_REFRESH_SECRET "7d" 5 }

/-- The state a successful refresh with oldRefreshTok leaves behind:
the stored refresh-token reference has been nulled. -/
def rotatedState : AppState := { users := [{ aliceUser with refreshToken := none }], now := 6 }

/-- The outcome of the witness refresh call, extracted for reuse. -/
def refreshOutcome : TokensResponseDto × AppState :=
  ((AuthService.refreshTokens (AuthHeader.bearer oldRefreshTok) baseState).toOption).getD default

def changePwDto : ChangePasswordDto := { currentPassword := "P@ssw0rd1", newPassword := "NewPass1" }

/-- The outcome of the witness changePassword call, extracted for reuse. -/
def changePwOutcome : TokensResponseDto × AppState :=
  ((AuthService.changePassword 1 changePwDto baseState).toOption).getD default

/-
Helper lemmas and claim theorems.
-/

/-- Helper: find? commutes with mapping a function that preserves the
predicate. -/
theorem find?_map_of_pred {α : Type} (p : α → Bool) (f : α → α) (l : List α)
    (h : ∀ x, p (f x) = p x) : (l.map f).find? p = (l.find? p).map f := by
  induction l with
  | nil => rfl
  | cons a t ih =>
    simp only [List.map_cons, List.find?_cons, h a]
    cases hp : p a <;> simp [ih]

/-- Helper: a success passes through the catch wrapper untouched. -/
theorem withServiceErrors_ok {α : Type} (operation : String) (r : Except AppError α) (v : α)
    (h : AuthService.withServiceErrors operation r = .ok v) : r = .ok v := by
  unfold AuthService.withServiceErrors at h
  cases r with
  | ok w => simpa using h
  | error e => simp at h

/-- Helper: UsersService.findOne succeeds exactly on the stored row. -/
theorem findOne_ok_iff (id : Nat) (s : AppState) (u : User) :
    UsersService.findOne id s = .ok u ↔ s.users.find? (fun x => x.id == id) = some u := by
  unfold UsersService.findOne
  cases hf : s.users.find? (fun x => x.id == id) <;> simp

/-- Helper: a verified token was signed with the given secret and
carries the returned claims. -/
theorem verifyAsync_ok (t : Jwt) (secret : String) (payload : JwtPayload)
    (h : JwtService.verifyAsync t secret = .ok payload) :
    t.secret = secret ∧ payload = t.payload := by
  unfold JwtService.verifyAsync at h
  split at h
  · exact ⟨by assumption, (Except.ok.inj h).symm⟩
  · simp at h

/-- Helper: the effect of UsersService.update when only the
refreshToken column is supplied. -/
theorem update_refreshToken_eq (id : Nat) (rt : Option Jwt) (s : AppState) (u : User)
    (h : s.users.find? (fun x => x.id == id) = some u) :
    UsersService.update id { refreshToken := some rt } s =
      .ok ({ u with refreshToken := rt },
        { s with users := s.users.map (fun x => if x.id == id then { u with refreshToken := rt } else x) }) := by
  have hid : (u.id == id) = true := by simpa using List.find?_some h
  have hid2 : u.id = id := by simpa using hid
  have hmap : (s.users.map (fun x => if x.id == id then { u with refreshToken := rt } else x)).find?
      (fun x => x.id == id) = some { u with refreshToken := rt } := by
    rw [find?_map_of_pred]
    · rw [h]; simp [hid2]
    · intro x
      by_cases hx : (x.id == id) = true
      · simp [hx, hid]
      · simp [hx]
  unfold UsersService.update
  rw [h]
  dsimp only
  rw [hmap]

/-- Helper: the effect of UsersService.update when only a nonempty
password is supplied. -/
theorem update_password_eq (id : Nat) (pw : String) (s : AppState) (u : User)
    (h : s.users.find? (fun x => x.id == id) = some u) (hpw : pw ≠ "") :
    UsersService.update id { password := some pw } s =
      .ok ({ u with password := Bcrypt.hash pw 10 },
        { s with users := s.users.map (fun x => if x.id == id then { u with password := Bcrypt.hash pw 10 } else x) }) := by
  have hid : (u.id == id) = true := by simpa using List.find?_some h
  have hid2 : u.id = id := by simpa using hid
  have hmap : (s.users.map (fun x => if x.id == id then { u with password := Bcrypt.hash pw 10 } else x)).find?
      (fun x => x.id == id) = some { u with password := Bcrypt.hash pw 10 } := by
    rw [find?_map_of_pred]
    · rw [h]; simp [hid2]
    · intro x
      by_cases hx : (x.id == id) = true
      · simp [hx, hid]
      · simp [hx]
  unfold UsersService.update
  rw [h]
  dsimp only
  rw [if_pos hpw]
  rw [hmap]

/-- Helper: storing a refresh token for an existing user rewrites that
row and succeeds. -/
theorem storeRefreshToken_eq (id : Nat) (rt : Jwt) (s : AppState) (u : User)
    (h : s.users.find? (fun x => x.id == id) = some u) :
    AuthService.storeRefreshToken id rt s =
      .ok { s with users := s.users.map (fun x => if x.id == id then { u with refreshToken := some rt } else x) } := by
  have hid : (u.id == id) = true := by simpa using List.find?_some h
  have hid2 : u.id = id := by simpa using hid
  have hfind1 : (s.users.map (fun x => if x.id == id then { u with refreshToken := some rt } else x)).find?
      (fun x => x.id == id) = some { u with refreshToken := some rt } := by
    rw [find?_map_of_pred]
    · rw [h]; simp [hid2]
    · intro x
      by_cases hx : (x.id == id) = true
      · simp [hx, hid]
      · simp [hx]
  unfold AuthService.storeRefreshToken
  rw [update_refreshToken_eq id (some rt) s u h]
  dsimp only
  rw [show UsersService.findOne id { s with users := s.users.map (fun x => if x.id == id then { u with refreshToken := some rt } else x) } = .ok { u with refreshToken := some rt } from (findOne_ok_iff _ _ _).mpr hfind1]
  rfl

/-- Helper: generateTokens on an existing subject issues the pair at
the current clock, binds the refresh half and advances the clock. -/
theorem generateTokens_eq (user : User) (s : AppState) (u : User)
    (h : s.users.find? (fun x => x.id == user.id) = some u) :
    AuthService.generateTokens user s =
      .ok ({ accessToken := JwtService.signAsync { sub := user.id, username := user.username } JWT_ACCESS_SECRET "15m" s.now,
             refreshToken := JwtService.signAsync { sub := user.id, username := user.username } JWT_REFRESH_SECRET "7d" s.now },
           { users := s.users.map (fun x => if x.id == user.id then { u with refreshToken := some (JwtService.signAsync { sub := user.id, username := user.username } JWT_REFRESH_SECRET "7d" s.now) } else x),
             now := s.now + 1 }) := by
  unfold AuthService.generateTokens
  dsimp only
  rw [storeRefreshToken_eq user.id _ { s with now := s.now + 1 } u h]

/-- Helper: clearRefreshToken on an existing user nulls that row. -/
theorem clearRefreshToken_eq (id : Nat) (s : AppState) (u : User)
    (h : s.users.find? (fun x => x.id == id) = some u) :
    AuthService.clearRefreshToken id s =
      { s with users := s.users.map (fun x => if x.id == id then { u with refreshToken := none } else x) } := by
  unfold AuthService.clearRefreshToken AuthService.clearRefreshTokenWith
  rw [show UsersService.findOne id s = .ok u from (findOne_ok_iff _ _ _).mpr h]
  dsimp only
  rw [update_refreshToken_eq id none s u h]

/-- Helper: after any successful refresh, the header held a token T
signed with the refresh secret and the stored refresh-token reference
of the subject of T is null in the resulting state. -/
theorem refreshTokens_ok_state (h : AuthHeader) (s : AppState) (out : TokensResponseDto × AppState)
    (hok : AuthService.refreshTokens h s = .ok out) :
    ∃ T u2, h = .bearer T ∧ T.secret = JWT_REFRESH_SECRET ∧
      out.2.users.find? (fun x => x.id == T.payload.sub) = some u2 ∧ u2.refreshToken = none := by
  unfold AuthService.refreshTokens at hok
  have hok1 := withServiceErrors_ok _ _ _ hok
  clear hok
  cases h with
  | missing => simp at hok1
  | malformed r => simp at hok1
  | bearer T =>
    dsimp only at hok1
    cases hv : JwtService.verifyAsync T JWT_REFRESH_SECRET with
    | error e => rw [hv] at hok1; simp at hok1
    | ok payload =>
      rw [hv] at hok1
      dsimp only at hok1
      obtain ⟨hsec, hpay⟩ := verifyAsync_ok T _ payload hv
      cases hf : UsersService.findOne payload.sub s with
      | error e => rw [hf] at hok1; simp at hok1
      | ok user =>
        rw [hf] at hok1
        dsimp only at hok1
        have hfind : s.users.find? (fun x => x.id == payload.sub) = some user := (findOne_ok_iff _ _ _).mp hf
        have hid2 : user.id = payload.sub := by simpa using List.find?_some hfind
        have hfind1 : s.users.find? (fun x => x.id == user.id) = some user := by rw [hid2]; exact hfind
        by_cases hrt : user.refreshToken ≠ some T
        · rw [if_pos hrt] at hok1; simp at hok1
        · rw [if_neg hrt] at hok1
          rw [generateTokens_eq user s user hfind1] at hok1
          dsimp only at hok1
          have hout := (Except.ok.inj hok1).symm
          set newTok := JwtService.signAsync { sub := user.id, username := user.username } JWT_REFRESH_SECRET "7d" s.now with hnt
          set f1 : User → User := fun x => if x.id == user.id then { user with refreshToken := some newTok } else x with hf1
          have hbid : (user.id == user.id) = true := by simp
          have hpres1 : ∀ x : User, ((f1 x).id == user.id) = (x.id == user.id) := by
            intro x
            by_cases hx : x.id = user.id
            · simp [hf1, hx]
            · simp [hf1, hx]
          have hfindS1 : (s.users.map f1).find? (fun x => x.id == user.id) = some { user with refreshToken := some newTok } := by
            rw [find?_map_of_pred _ _ _ hpres1, hfind1]
            simp [hf1]
          have hclear := clearRefreshToken_eq user.id
            { users := s.users.map f1, now := s.now + 1 }
            { user with refreshToken := some newTok } hfindS1
          refine ⟨T, { user with refreshToken := none }, rfl, hsec, ?_, rfl⟩
          rw [← hpay, ← hid2]
          rw [hout]
          dsimp only
          rw [hclear]
          dsimp only
          set f2 : User → User := fun x => if x.id == user.id then { user with refreshToken := none } else x with hf2
          have hpres2 : ∀ x : User, ((f2 x).id == user.id) = (x.id == user.id) := by
            intro x
            by_cases hx : x.id = user.id
            · simp [hf2, hx]
            · simp [hf2, hx]
          rw [find?_map_of_pred _ _ _ hpres2, hfindS1]
          simp [hf2]

/-- Claim C2: for every user and refresh token T, after a refresh call
using T succeeds, a second refresh call using the same T fails with
UnauthorizedError. -/
theorem refresh_token_single_use (h : AuthHeader) (s : AppState) (out : TokensResponseDto × AppState)
    (hok : AuthService.refreshTokens h s = .ok out) :
    AuthService.refreshTokens h out.2 = .error (.unauthorized "Invalid refresh token") := by
  obtain ⟨T, u2, hT, hsec, hfind, hnone⟩ := refreshTokens_ok_state h s out hok
  subst hT
  unfold AuthService.refreshTokens
  dsimp only
  have hv : JwtService.verifyAsync T JWT_REFRESH_SECRET = .ok T.payload := by
    unfold JwtService.verifyAsync
    rw [if_pos hsec]
  rw [hv]
  dsimp only
  rw [show UsersService.findOne T.payload.sub out.2 = .ok u2 from (findOne_ok_iff _ _ _).mpr hfind]
  dsimp only
  rw [if_pos (show u2.refreshToken ≠ some T by simp [hnone])]
  rfl

/-- Helper: a bcrypt hash is never the empty string. -/
theorem bcrypt_hash_ne_empty (pw : String) (cost : Nat) : Bcrypt.hash pw cost ≠ "" := by
  unfold Bcrypt.hash
  intro hc
  have hl := congrArg String.length hc
  simp [String.length_append] at hl
  exact absurd hl.1.2 (by decide)

/-- Helper: after any successful changePassword, the subject row holds
a refresh token issued at the pre-call clock value. -/
theorem changePassword_ok_state (uid : Nat) (dto : ChangePasswordDto) (s : AppState)
    (out : TokensResponseDto × AppState)
    (hok : AuthService.changePassword uid dto s = .ok out) :
    ∃ u3 nt, out.2.users.find? (fun x => x.id == uid) = some u3
      ∧ u3.refreshToken = some nt ∧ nt.iat = s.now := by
  unfold AuthService.changePassword at hok
  have hok1 := withServiceErrors_ok _ _ _ hok
  clear hok
  by_cases heq : dto.currentPassword = dto.newPassword
  · rw [if_pos heq] at hok1; simp at hok1
  · rw [if_neg heq] at hok1
    cases hf : UsersService.findOne uid s with
    | error e => rw [hf] at hok1; simp at hok1
    | ok user =>
      rw [hf] at hok1
      dsimp only at hok1
      have hfind : s.users.find? (fun x => x.id == uid) = some user := (findOne_ok_iff _ _ _).mp hf
      have hid2 : user.id = uid := by simpa using List.find?_some hfind
      by_cases hvp : AuthService.validatePassword dto.currentPassword user.password = true
      · rw [if_neg (not_not_intro hvp)] at hok1
        have hpw : AuthService.hashPassword dto.newPassword ≠ "" := bcrypt_hash_ne_empty _ _
        rw [update_password_eq uid (AuthService.hashPassword dto.newPassword) s user hfind hpw] at hok1
        dsimp only at hok1
        set u1 : User := { user with password := Bcrypt.hash (AuthService.hashPassword dto.newPassword) 10 } with hu1
        set f1 : User → User := fun x => if x.id == uid then u1 else x with hf1
        have hbid : (u1.id == uid) = true := by simp [hu1, hid2]
        have hpres1 : ∀ x : User, ((f1 x).id == uid) = (x.id == uid) := by
          intro x
          by_cases hx : x.id = uid
          · simp [hf1, hx, hu1, hid2]
          · simp [hf1, hx]
        have hfindS1 : (s.users.map f1).find? (fun x => x.id == uid) = some u1 := by
          rw [find?_map_of_pred _ _ _ hpres1, hfind]
          simp [hf1, hid2]
        have hclear := clearRefreshToken_eq uid { users := s.users.map f1, now := s.now } u1 hfindS1
        rw [hclear] at hok1
        dsimp only at hok1
        set u2 : User := { u1 with refreshToken := none } with hu2
        set f2 : User → User := fun x => if x.id == uid then u2 else x with hf2
        have hpres2 : ∀ x : User, ((f2 x).id == uid) = (x.id == uid) := by
          intro x
          by_cases hx : x.id = uid
          · simp [hf2, hx, hu2, hu1, hid2]
          · simp [hf2, hx]
        have hfindS2 : ((s.users.map f1).map f2).find? (fun x => x.id == uid) = some u2 := by
          rw [find?_map_of_pred _ _ _ hpres2, hfindS1]
          simp [hf2, hu1, hid2]
        rw [show UsersService.findOne uid { users := (s.users.map f1).map f2, now := s.now } = .ok u2 from (findOne_ok_iff _ _ _).mpr hfindS2] at hok1
        dsimp only at hok1
        have hfindS2id : ((s.users.map f1).map f2).find? (fun x => x.id == u2.id) = some u2 := by
          rw [show u2.id = uid from by simp [hu2, hu1, hid2]]
          exact hfindS2
        rw [generateTokens_eq u2 { users := (s.users.map f1).map f2, now := s.now } u2 hfindS2id] at hok1
        dsimp only at hok1
        have hout := (Except.ok.inj hok1).symm
        set nt : Jwt := JwtService.signAsync { sub := u2.id, username := u2.username } JWT_REFRESH_SECRET "7d" s.now with hnt
        set f3 : User → User := fun x => if x.id == u2.id then { u2 with refreshToken := some nt } else x with hf3
        have hpres3 : ∀ x : User, ((f3 x).id == uid) = (x.id == uid) := by
          intro x
          by_cases hx : x.id = uid
          · simp [hf3, hx, hu2, hu1, hid2]
          · simp [hf3, hu2, hu1, hid2, hx]
        refine ⟨{ u2 with refreshToken := some nt }, nt, ?_, rfl, rfl⟩
        rw [hout]
        dsimp only
        rw [find?_map_of_pred _ _ _ hpres3, hfindS2]
        simp [hf3, hu2, hu1, hid2]
      · rw [if_pos hvp] at hok1
        simp at hok1

/-- Claim C9: after changePassword succeeds, any refresh token issued
to that user before the change fails a subsequent refresh call with
UnauthorizedError. -/
theorem changePassword_invalidates_old_refresh (uid : Nat) (dto : ChangePasswordDto) (s : AppState)
    (out : TokensResponseDto × AppState) (oldTok : Jwt)
    (hok : AuthService.changePassword uid dto s = .ok out)
    (hsub : oldTok.payload.sub = uid)
    (hsec : oldTok.secret = JWT_REFRESH_SECRET)
    (hiat : oldTok.iat < s.now) :
    AuthService.refreshTokens (AuthHeader.bearer oldTok) out.2 = .error (.unauthorized "Invalid refresh token") := by
  obtain ⟨u3, nt, hfind, hrt, hniat⟩ := changePassword_ok_state uid dto s out hok
  unfold AuthService.refreshTokens
  dsimp only
  have hv : JwtService.verifyAsync oldTok JWT_REFRESH_SECRET = .ok oldTok.payload := by
    unfold JwtService.verifyAsync
    rw [if_pos hsec]
  rw [hv]
  dsimp only
  have hfind2 : out.2.users.find? (fun x => x.id == oldTok.payload.sub) = some u3 := by
    rw [hsub]; exact hfind
  rw [show UsersService.findOne oldTok.payload.sub out.2 = .ok u3 from (findOne_ok_iff _ _ _).mpr hfind2]
  dsimp only
  have hne : u3.refreshToken ≠ some oldTok := by
    rw [hrt]
    intro hcc
    have hto := Option.some.inj hcc
    have hia := congrArg Jwt.iat hto
    rw [hniat] at hia
    exact absurd hia (ne_of_gt hiat)
  rw [if_pos hne]
  rfl

/-- Claim C3 (divergence): for every username whose lowercased form is
absent from the store, register does not succeed; it fails with
NotFoundError raised by the duplicate pre-check, because
findOneByUsername throws on absence. -/
theorem register_fresh_username_fails (s : AppState) (dto : CreateUserDto)
    (h : s.users.find? (fun u => u.username == jsToLowerCase dto.username) = none) :
    AuthService.register dto s = .error (.notFound ("User with username " ++ dto.username ++ " not found")) := by
  unfold AuthService.register UsersService.create UsersService.findOneByUsername
  rw [h]
  rfl

/-- Witness for the C3 divergence theorem on the empty store. -/
theorem register_fresh_username_fails_witness :
    AuthService.register { username := "alice", password := "pw" } emptyState
      = .error (.notFound "User with username alice not found") :=
  register_fresh_username_fails emptyState { username := "alice", password := "pw" } (by decide)

/-- Witness for C2 at a concrete state and token. -/
theorem refresh_token_single_use_witness :
    AuthService.refreshTokens (AuthHeader.bearer oldRefreshTok) refreshOutcome.2
      = .error (.unauthorized "Invalid refresh token") :=
  refresh_token_single_use (AuthHeader.bearer oldRefreshTok) baseState refreshOutcome (by decide)

/-- Witness for C9 at a concrete state, password change and old token. -/
theorem changePassword_invalidates_old_refresh_witness :
    AuthService.refreshTokens (AuthHeader.bearer oldRefreshTok) changePwOutcome.2
      = .error (.unauthorized "Invalid refresh token") :=
  changePassword_invalidates_old_refresh 1 changePwDto baseState changePwOutcome oldRefreshTok
    (by decide) (by decide) (by decide) (by decide)

/-- Claim C1 (divergence): a successful refresh returns a fresh pair,
but the completed state stores a null refresh-token reference, not the
returned refresh token: clearRefreshToken runs after generateTokens and
wipes the binding just written. -/
theorem refresh_rotation_clears_new_binding :
    AuthService.refreshTokens (AuthHeader.bearer oldRefreshTok) baseState = .ok (rotatedTokens, rotatedState)
    ∧ rotatedTokens.refreshToken ≠ oldRefreshTok
    ∧ (rotatedState.users.find? (fun u => u.id == 1)).map User.refreshToken = some none :=
  ⟨by decide, by decide, by decide⟩

/-- Claim C4 (divergence): registering a fresh username fails with
NotFoundError, so registering twice never yields one created user plus
a Conflict; and when the username does exist, the ConflictError raised
by the service is converted to InternalError by the controller instead
of propagating to the transport boundary. -/
theorem register_twice_divergence :
    AuthService.register { username := "Alice", password := "P@ssw0rd1" } emptyState
        = .error (.notFound "User with username Alice not found")
    ∧ AuthService.register { username := "Alice", password := "Other1234" } baseState
        = .error (.conflict "Username already exists")
    ∧ AuthController.register { username := "Alice", password := "Other1234" } baseState
        = .error (.internal "Registration failed") :=
  ⟨by decide, by decide, by decide⟩

/-- Counterexample for C5: logging in with an absent username fails
with NotFoundError, not UnauthorizedError. -/
theorem login_absent_user_not_unauthorized :
    ¬ ∃ m, AuthService.login { username := "ghost", password := "x" } baseState
      = Except.error (AppError.unauthorized m) := by
  intro hx
  obtain ⟨m, hm⟩ := hx
  have hv : AuthService.login { username := "ghost", password := "x" } baseState
      = Except.error (AppError.notFound "User with username ghost not found") := by decide
  rw [hv] at hm
  exact AppError.noConfusion (Except.error.inj hm)

/-- Claim C5 as amended: an absent canonicalized username fails login
with NotFoundError; an existing user with a non-verifying password
fails login with UnauthorizedError. -/
theorem login_error_kinds (s : AppState) (dto : LoginUserDto) :
    (s.users.find? (fun u => u.username == jsToLowerCase dto.username) = none →
      AuthService.login dto s = .error (.notFound ("User with username " ++ dto.username ++ " not found")))
    ∧ (∀ u, s.users.find? (fun x => x.username == jsToLowerCase dto.username) = some u →
        AuthService.validatePassword dto.password u.password = false →
        AuthService.login dto s = .error (.unauthorized "Invalid credentials")) := by
  constructor
  · intro h
    unfold AuthService.login UsersService.findOneByUsername
    rw [h]
    rfl
  · intro u h hbad
    unfold AuthService.login UsersService.findOneByUsername
    rw [h]
    dsimp only
    rw [if_pos (show ¬ (AuthService.validatePassword dto.password u.password = true) by simp [hbad])]
    rfl

/-- Witness for the amended C5 on concrete absent-user and
wrong-password calls. -/
theorem login_error_kinds_witness :
    AuthService.login { username := "ghost", password := "x" } baseState
        = .error (.notFound "User with username ghost not found")
    ∧ AuthService.login { username := "Alice", password := "wrong" } baseState
        = .error (.unauthorized "Invalid credentials") :=
  ⟨(login_error_kinds baseState { username := "ghost", password := "x" }).1 (by decide),
   (login_error_kinds baseState { username := "Alice", password := "wrong" }).2 aliceUser (by decide) (by decide)⟩

/-- Claim C6: for a resolvable user and a non-empty required set, the
guard allows iff some required permission name is among the names
flattened from the user roles; with no subject or an unresolvable user
it denies. -/
theorem guard_any_of_semantics (required : List String) (hne : required ≠ []) (s : AppState) (uid : Nat) :
    (∀ u, s.users.find? (fun x => x.id == uid) = some u →
      (PermissionsGuard.canActivate (some required) (some uid) s = true ↔
        ∃ p, p ∈ required ∧ p ∈ PermissionsGuard.userPermissionNames u))
    ∧ PermissionsGuard.canActivate (some required) none s = false
    ∧ (s.users.find? (fun x => x.id == uid) = none →
        PermissionsGuard.canActivate (some required) (some uid) s = false) := by
  refine ⟨?_, rfl, ?_⟩
  · intro u hu
    unfold PermissionsGuard.canActivate
    dsimp only
    rw [hu]
    rw [List.any_eq_true]
    constructor
    · rintro ⟨p, hp, hc⟩
      exact ⟨p, hp, List.elem_iff.mp hc⟩
    · rintro ⟨p, hp, hm⟩
      exact ⟨p, hp, List.elem_iff.mpr hm⟩
  · intro h
    unfold PermissionsGuard.canActivate
    dsimp only
    rw [h]

/-- Witness for C6: a user holding role_read but not user_create is
allowed on a route requiring either of the two. -/
theorem guard_any_of_semantics_witness :
    (["role_read", "user_create"] : List String) ≠ []
    ∧ PermissionsGuard.canActivate (some ["role_read", "user_create"]) (some 2) permState = true :=
  ⟨by decide,
   ((guard_any_of_semantics ["role_read", "user_create"] (by decide) permState 2).1 bobUser
      (by decide)).mpr ⟨"role_read", by decide, by decide⟩⟩

/-- Counterexample despite C7: with an explicitly empty required
permissions list the guard denies even a resolvable user, because an
empty JS array is truthy and no required name can match. -/
theorem guard_empty_list_denies :
    ¬ (PermissionsGuard.canActivate (some []) (some 2) permState = true) := by decide

/-- Claim C7 as amended: when no permissions metadata is attached the
guard allows regardless of the user; when the metadata is an explicitly
empty list the guard always denies. -/
theorem guard_public_route_semantics (userSub : Option Nat) (s : AppState) :
    PermissionsGuard.canActivate none userSub s = true
    ∧ PermissionsGuard.canActivate (some []) userSub s = false := by
  refine ⟨rfl, ?_⟩
  unfold PermissionsGuard.canActivate
  dsimp only
  cases userSub with
  | none => rfl
  | some uid =>
    dsimp only
    cases hf : s.users.find? (fun x => x.id == uid) with
    | none => rfl
    | some u => rfl

/-- Counterexample for C8: when the supplied new password equals the
supplied current password, changePassword fails with ConflictError even
though the current password does not verify. -/
theorem changePassword_same_password_not_unauthorized :
    AuthService.changePassword 1 { currentPassword := "bad", newPassword := "bad" } baseState
        = .error (.conflict "Your new password must be different from the current one")
    ∧ ¬ ∃ m, AuthService.changePassword 1 { currentPassword := "bad", newPassword := "bad" } baseState
        = .error (.unauthorized m) := by
  refine ⟨by decide, ?_⟩
  intro hx
  obtain ⟨m, hm⟩ := hx
  have hv : AuthService.changePassword 1 { currentPassword := "bad", newPassword := "bad" } baseState
      = Except.error (AppError.conflict "Your new password must be different from the current one") := by decide
  rw [hv] at hm
  exact AppError.noConfusion (Except.error.inj hm)

/-- Claim C8 as amended: an equal new password fails with
ConflictError before any verification; otherwise a non-verifying
current password fails with UnauthorizedError. -/
theorem changePassword_error_semantics (uid : Nat) (dto : ChangePasswordDto) (s : AppState) :
    (dto.currentPassword = dto.newPassword →
      AuthService.changePassword uid dto s
        = .error (.conflict "Your new password must be different from the current one"))
    ∧ (∀ u, dto.currentPassword ≠ dto.newPassword →
        UsersService.findOne uid s = .ok u →
        AuthService.validatePassword dto.currentPassword u.password = false →
        AuthService.changePassword uid dto s = .error (.unauthorized "Current password is incorrect")) := by
  constructor
  · intro h
    unfold AuthService.changePassword
    rw [if_pos h]
    rfl
  · intro u hne hf hbad
    unfold AuthService.changePassword
    rw [if_neg hne, hf]
    dsimp only
    rw [if_pos (show ¬ (AuthService.validatePassword dto.currentPassword u.password = true) by simp [hbad])]
    rfl

/-- Witness for the amended C8 on concrete calls. -/
theorem changePassword_error_semantics_witness :
    AuthService.changePassword 1 { currentPassword := "bad", newPassword := "bad" } baseState
        = .error (.conflict "Your new password must be different from the current one")
    ∧ AuthService.changePassword 1 { currentPassword := "bad", newPassword := "good" } baseState
        = .error (.unauthorized "Current password is incorrect") :=
  ⟨(changePassword_error_semantics 1 { currentPassword := "bad", newPassword := "bad" } baseState).1 rfl,
   (changePassword_error_semantics 1 { currentPassword := "bad", newPassword := "good" } baseState).2
      aliceUser (by decide) (by decide) (by decide)⟩

/-- Claim C10: clearRefreshToken returns normally for every behavior of
the underlying lookup and update, swallowing every failure (returning
the state unchanged) and otherwise returning the updated state; in
particular it returns the state unchanged for a nonexistent user id. -/
theorem clearRefreshToken_never_raises
    (findOne : Nat → AppState → Except AppError User)
    (update : Nat → UpdateUserDto → AppState → Except AppError (User × AppState))
    (userId : Nat) (s : AppState) :
    (∃ s2, AuthService.clearRefreshTokenWith findOne update userId s = s2
      ∧ (s2 = s ∨ ∃ u s1, update userId { refreshToken := some none } s = .ok (u, s1) ∧ s2 = s1))
    ∧ AuthService.clearRefreshToken 99 baseState = baseState := by
  constructor
  · unfold AuthService.clearRefreshTokenWith
    cases hf : findOne userId s with
    | error e => exact ⟨s, rfl, Or.inl rfl⟩
    | ok u =>
      cases hu : update userId { refreshToken := some none } s with
      | error e => exact ⟨s, rfl, Or.inl rfl⟩
      | ok p =>
        obtain ⟨u1, s1⟩ := p
        exact ⟨s1, rfl, Or.inr ⟨u1, s1, rfl, rfl⟩⟩
  · decide
